import Mathlib

/-!
Verification of the StyleAI fashion backend (app.py / database.py).

The Python request-orchestration layer is shallowly embedded: pure helpers
(`strip_md`, `ok_file`, the prompt builders, `hashpw`-agnostic signup logic)
become Lean functions; effectful steps (the Groq HTTP POST, file writes, the
SQLite inserts) are parametrised by oracles describing the outcome the outside
world produces for this one request, so a handler is a total function from its
inputs and those oracles to the response it ships plus the rows it persisted.
-/

namespace StyleAI

/-- Python `str.strip()` whitespace set (ASCII part): space, \t, \n, \r, \v, \f. -/
def isPyWs (c : Char) : Bool :=
  c == ' ' || c == '\t' || c == '\n' || c == '\r' || c == Char.ofNat 11 || c == Char.ofNat 12

/-- Python `s.strip()`. -/
def pyStrip (s : String) : String :=
  String.mk (((s.data.dropWhile isPyWs).reverse.dropWhile isPyWs).reverse)

/-- `request.form.get(key, default)`: first binding of `key`, else the default. -/
def formGet (form : List (String × String)) (key dflt : String) : String :=
  (form.lookup key).getD dflt

/-- Python truthiness of `session.get("user_id")`: `None` and `0` are falsy. -/
def pyTruthyUid : Option Nat → Bool
  | none => false
  | some n => n != 0

/-! ### Markdown stripper: `strip_md` (app.py lines 86-89)

`re.sub(r"\*\*(.+?)\*\*", r"\1", text)` then `re.sub(r"\*(.+?)\*", r"\1", text)`
then `.strip()`.  `findCloseAux cl cs acc` models the non-greedy `(.+?)` search:
consume at least one non-newline character, and before each further character
test whether the closing delimiter `cl` starts here; on success return the
captured content and the remainder after the delimiter. -/

def findCloseAux (cl : List Char) : List Char → List Char → Option (List Char × List Char)
  | [], acc =>
    if (!acc.isEmpty) && cl.isPrefixOf ([] : List Char) then some (acc.reverse, []) else none
  | c :: rest, acc =>
    if (!acc.isEmpty) && cl.isPrefixOf (c :: rest) then
      some (acc.reverse, (c :: rest).drop cl.length)
    else if c = '\n' then none
    else findCloseAux cl rest (c :: acc)

/-- One left-to-right pass of `re.sub(open …close, r"\1", ·)`: at each position
try to match the opening delimiter and find a non-greedy close; on a match emit
the captured content (not rescanned) and continue after the match, otherwise
emit one character and move on.  `fuel` is a structural-recursion bound: every
step consumes at least one character, so `fuel = cs.length` (see `subPat`)
never runs out and the `0, cs => cs` arm is unreachable. -/
def subPatF (op cl : List Char) : Nat → List Char → List Char
  | _, [] => []
  | 0, cs => cs
  | fuel + 1, c :: rest =>
    if op.isPrefixOf (c :: rest) then
      match findCloseAux cl ((c :: rest).drop op.length) [] with
      | some (content, rest') => content ++ subPatF op cl fuel rest'
      | none => c :: subPatF op cl fuel rest
    else c :: subPatF op cl fuel rest

def subPat (op cl cs : List Char) : List Char :=
  subPatF op cl cs.length cs

/-- app.py `strip_md`: drop `**bold**` markers, then `*italic*` markers, then trim. -/
def strip_md (text : String) : String :=
  let t1 := String.mk (subPat ['*', '*'] ['*', '*'] text.data)
  let t2 := String.mk (subPat ['*'] ['*'] t1.data)
  pyStrip t2

/-! ### Upload acceptance: `ok_file` (app.py lines 22, 83-84) -/

def ALLOWED : List String := ["png", "jpg", "jpeg", "webp", "gif"]

/-- Python `name.rsplit(".", 1)[1]` when a dot is present: the text after the
last dot. -/
def afterLastDot (s : String) : String :=
  String.mk ((s.data.reverse.takeWhile (fun c => c != '.')).reverse)

/-- Python `.lower()`, character by character (every member of `ALLOWED` is
ASCII, so only ASCII lowering can influence the membership test). -/
def pyLower (s : String) : String := String.mk (s.data.map Char.toLower)

/-- app.py `ok_file`: `"." in name and name.rsplit(".", 1)[1].lower() in ALLOWED`. -/
def ok_file (name : String) : Bool :=
  name.data.contains '.' && ALLOWED.contains (pyLower (afterLastDot name))

/-! ### Completion client: `call_text` / `call_vision` (app.py lines 103-145) -/

/-- Module configuration read from the environment: `GROQ_KEY`. -/
structure Config where
  groqKey : String
deriving DecidableEq

/-- Outcome of one `requests.post` to the completion endpoint, after
`raise_for_status()` and JSON field extraction: the extracted
`choices[0].message.content`, a `requests.Timeout`, or any other exception
(HTTP error status, connection failure, malformed JSON, …) with its message. -/
inductive CallResult where
  | ok (content : String)
  | timeout
  | err (msg : String)
deriving DecidableEq

/-- Network oracle: what the external service does for this request's text
POST and vision POST. -/
structure Net where
  textPost : String → CallResult
  visionPost : (prompt imgPath : String) → CallResult

/-- Filesystem oracle: `open(img_path, "rb").read()` (none = OSError) and
`photo.save(path)` (some msg = exception). -/
structure Files where
  readBytes : String → Option (List Nat)
  savePhoto : String → Option String

/-- Database oracle for this request: whether the `fashion_profiles` insert and
the `ai_recommendations` insert raise (with the exception's message). -/
structure Db where
  insertProfileErr : Option String
  insertRecErr : Option String

/-- Result of a completion-client call: the text handed back, and whether any
network POST was attempted. -/
structure CallOut where
  text : String
  netUsed : Bool
deriving DecidableEq

def ADVISORY : String := "⚠️ GROQ_API_KEY not set. Add it to your .env file and restart."

/-- app.py `call_text`. -/
def call_text (cfg : Config) (net : Net) (prompt : String) : CallOut :=
  if cfg.groqKey = "" then ⟨ADVISORY, false⟩
  else
    match net.textPost prompt with
    | .ok content => ⟨strip_md content, true⟩
    | .timeout => ⟨"Request timed out. Please try again.", true⟩
    | .err e => ⟨"API Error: " ++ e, true⟩

/-- app.py `call_vision`: mime lookup and base64 encoding cannot raise; the
image read or the POST can, and `except Exception` (which also catches
`requests.Timeout`) falls back to `call_text` on the same prompt. -/
def call_vision (cfg : Config) (net : Net) (files : Files) (prompt imgPath : String) : CallOut :=
  if cfg.groqKey = "" then ⟨ADVISORY, false⟩
  else
    match files.readBytes imgPath with
    | none => call_text cfg net prompt
    | some _bytes =>
      match net.visionPost prompt imgPath with
      | .ok content => ⟨strip_md content, true⟩
      | .timeout => call_text cfg net prompt
      | .err _e => call_text cfg net prompt

/-! ### Prompt builders (app.py lines 264-288, 310-318, 331-345, 359-367) -/

def outfit_prompt (has_photo : Bool) (gender age size culture_style dress_style : String) :
    String :=
  "You are an expert fashion stylist with deep knowledge of global trends.\n" ++
  (if has_photo then
    "Carefully study the uploaded photo — note skin tone, body type, hair, and current style."
   else "") ++
  "\n\nCustomer Profile:\n- Gender: " ++ gender ++
  "\n- Age: " ++ age ++
  "\n- Size: " ++ size ++
  "\n- Cultural Style: " ++ culture_style ++
  "\n- Desired Style: " ++ dress_style ++
  "\n\nProvide a complete personalised styling report:\n\n" ++
  "1. OUTFIT RECOMMENDATIONS (5 outfits):\n" ++
  "   Name, description of top/bottom/shoes, and why it suits this person.\n\n" ++
  "2. COLOUR PALETTE (3 combinations):\n" ++
  "   Primary, secondary, accent — and why they work for this profile.\n\n" ++
  "3. ACCESSORIES (2 suggestions):\n   Specific items with brands if possible.\n\n" ++
  "4. STYLING TIP:\n   One powerful personalised tip" ++
  (if has_photo then "based on the photo" else "") ++
  ".\n\nBe warm, specific, and encouraging."

def pitch_prompt (product customer : String) : String :=
  "You are a luxury fashion copywriter.\nOutfit/Collection: " ++ product ++
  "\nTarget Customer: " ++
  (if customer = "" then "Fashion-forward individuals" else customer) ++
  "\n\nWrite a compelling fashion pitch:\n1. ELEVATOR PITCH: 2-3 vivid sentences.\n" ++
  "2. VALUE PROPOSITION: Why this is perfect for this customer.\n" ++
  "3. KEY DIFFERENTIATORS: 3 standout features.\n" ++
  "4. CALL TO ACTION: A warm, motivating closing line."

def lead_prompt (name budget need urgency : String) : String :=
  "You are an AI fashion consultant.\nCustomer: " ++ name ++ " | Budget: " ++ budget ++
  " | Occasion: " ++ need ++ " | Timeline: " ++ urgency ++
  "\n\nGive a STYLE FIT SCORE (0-100):\n1. Budget Fit (0-25 pts)\n" ++
  "2. Occasion Fit (0-25 pts)\n3. Urgency Score (0-25 pts)\n4. Personalisation (0-25 pts)\n\n" ++
  "Include:\n- TOTAL SCORE: X / 100\n- One-sentence reasoning per dimension\n" ++
  "- TIER: HOT (90-100) / WARM (75-89) / MODERATE (60-74) / COLD (below 60)\n" ++
  "- Match probability: X%\n- One personalised styling suggestion"

def campaign_prompt (product audience platform : String) : String :=
  "You are a fashion marketing strategist.\nProduct: " ++ product ++ " | Audience: " ++
  (if audience = "" then "Fashion enthusiasts" else audience) ++ " | Platform: " ++ platform ++
  "\n\nCreate a full marketing campaign:\n1. CAMPAIGN OBJECTIVE\n2. 5 CONTENT IDEAS for " ++
  platform ++ "\n3. 3 AD COPIES (Emotional / Trend-focused / Urgency-driven)\n" ++
  "4. 3 CALL-TO-ACTION options\n5. HASHTAGS: 6-8 targeted hashtags"

/-! ### Request handlers (app.py lines 216-370)

A handler's observable outcome: the HTTP status and JSON `result` it returns,
plus the rows it inserted and which client calls it made.  `photo_analyzed` is
`none` when the JSON response carries no such field. -/

structure ProfileRow where
  user_id : Option Nat
  gender : String
  age : String
  size : String
  culture_style : String
  dress_style : String
  photo_path : String
deriving DecidableEq

structure SavedRec where
  user_id : Option Nat
  profile_id : Option Nat
  request_type : String
  ai_response : String
deriving DecidableEq

structure HandlerOut where
  status : Nat
  result : String
  photo_analyzed : Option Bool
  profiles : List ProfileRow
  recs : List SavedRec
  visionUsed : Bool
  llmCalled : Bool
deriving DecidableEq

/-- app.py lines 298-300: the `except Exception` boundary of
`get_recommendation` — `jsonify({"result": f"Error: {e}. Please try again."}), 200`. -/
def errOut (e : String) : HandlerOut :=
  { status := 200, result := "Error: " ++ e ++ ". Please try again.",
    photo_analyzed := none, profiles := [], recs := [], visionUsed := false,
    llmCalled := false }

/-- app.py `save_rec`: best-effort insert into `ai_recommendations`; a raised
exception is printed and swallowed, so on failure no row appears and the
caller proceeds.  (The `input_data` snapshot column is persisted too but no
verified property reads it, so it is not carried in `SavedRec`.) -/
def save_rec (db : Db) (uid pid : Option Nat) (rtype resp : String) : List SavedRec :=
  match db.insertRecErr with
  | none => [{ user_id := uid, profile_id := pid, request_type := rtype, ai_response := resp }]
  | some _e => []

def UPLOAD_FOLDER : String := "static/uploads"

/-- app.py `get_recommendation` (`POST /get_recommendation`).  `photo` is the
uploaded file's filename, if a file part was sent.  `secure_filename` is
modelled as the filename itself (sanitisation is name-mangling only and no
verified property depends on it).  The whole body sits in a `try` whose
`except` produces `errOut`; inside it, `photo.save` and the profile `INSERT`
are the only statements that can raise. -/
def get_recommendation (cfg : Config) (net : Net) (files : Files) (db : Db)
    (uid : Option Nat) (form : List (String × String)) (photo : Option String) :
    HandlerOut :=
  let gender := formGet form "gender" "Not specified"
  let age := formGet form "age" "25"
  let size := formGet form "size" "M"
  let culture_style := formGet form "culture_style" "Universal"
  let dress_style := formGet form "dress_style" "Casual"
  let fn := photo.getD ""
  let has_photo : Bool := photo.isSome && (fn != "") && ok_file fn
  match (if has_photo then files.savePhoto fn else none) with
  | some e => errOut e
  | none =>
    let photo_path := if has_photo then UPLOAD_FOLDER ++ "/" ++ fn else ""
    match (if pyTruthyUid uid then db.insertProfileErr else none) with
    | some e => errOut e
    | none =>
      let profiles : List ProfileRow :=
        if pyTruthyUid uid then
          [{ user_id := uid, gender := gender, age := age, size := size,
             culture_style := culture_style, dress_style := dress_style,
             photo_path := photo_path }]
        else []
      -- `cur.lastrowid` of the fresh profile row; only its presence matters.
      let profile_id : Option Nat := if pyTruthyUid uid then some 1 else none
      let prompt := outfit_prompt has_photo gender age size culture_style dress_style
      let out :=
        if has_photo then call_vision cfg net files prompt photo_path
        else call_text cfg net prompt
      { status := 200, result := out.text, photo_analyzed := some has_photo,
        profiles := profiles, recs := save_rec db uid profile_id "outfit" out.text,
        visionUsed := has_photo, llmCalled := true }

/-- app.py `generate_pitch` (`POST /generate_pitch`). -/
def generate_pitch (cfg : Config) (net : Net) (db : Db)
    (uid : Option Nat) (form : List (String × String)) : HandlerOut :=
  let product := pyStrip (formGet form "product" "")
  let customer := pyStrip (formGet form "customer" "")
  if product = "" then
    { status := 200, result := "Please enter an outfit or collection description.",
      photo_analyzed := none, profiles := [], recs := [], visionUsed := false,
      llmCalled := false }
  else
    let out := call_text cfg net (pitch_prompt product customer)
    { status := 200, result := out.text, photo_analyzed := none, profiles := [],
      recs := save_rec db uid none "pitch" out.text, visionUsed := false,
      llmCalled := true }

/-- app.py `lead_score` (`POST /lead_score`): no required field, no short-circuit. -/
def lead_score (cfg : Config) (net : Net) (db : Db)
    (uid : Option Nat) (form : List (String × String)) : HandlerOut :=
  let name := formGet form "name" "Customer"
  let budget := formGet form "budget" "Not specified"
  let need := formGet form "need" "Not specified"
  let urgency := formGet form "urgency" "Not specified"
  let out := call_text cfg net (lead_prompt name budget need urgency)
  { status := 200, result := out.text, photo_analyzed := none, profiles := [],
    recs := save_rec db uid none "lead_score" out.text, visionUsed := false,
    llmCalled := true }

/-- app.py `generate_campaign` (`POST /generate_campaign`). -/
def generate_campaign (cfg : Config) (net : Net) (db : Db)
    (uid : Option Nat) (form : List (String × String)) : HandlerOut :=
  let product := pyStrip (formGet form "product" "")
  let audience := pyStrip (formGet form "audience" "")
  let platform := pyStrip (formGet form "platform" "Instagram")
  if product = "" then
    { status := 200, result := "Please enter a product or collection name.",
      photo_analyzed := none, profiles := [], recs := [], visionUsed := false,
      llmCalled := false }
  else
    let out := call_text cfg net (campaign_prompt product audience platform)
    { status := 200, result := out.text, photo_analyzed := none, profiles := [],
      recs := save_rec db uid none "campaign" out.text, visionUsed := false,
      llmCalled := true }

/-! ### History endpoint (app.py lines 216-228)

`SELECT … FROM ai_recommendations WHERE user_id=? ORDER BY created_at DESC
LIMIT 20`.  The stored table is a list of rows; the query filters on the owner
(SQL `=` never matches a NULL `user_id`), sorts newest-first and truncates. -/

structure RecRow where
  id : Nat
  user_id : Option Nat
  request_type : String
  input_data : String
  ai_response : String
  created_at : Nat
deriving DecidableEq

/-- `a` sorts before `b` under `ORDER BY created_at DESC`. -/
def newerFirst (a b : RecRow) : Prop := b.created_at ≤ a.created_at

instance : DecidableRel newerFirst := fun a b =>
  inferInstanceAs (Decidable (b.created_at ≤ a.created_at))

instance : IsTotal RecRow newerFirst :=
  ⟨fun a b => Nat.le_total b.created_at a.created_at⟩

instance : IsTrans RecRow newerFirst :=
  ⟨fun _a _b _c hab hbc => Nat.le_trans hbc hab⟩

def historyQuery (table : List RecRow) (u : Nat) : List RecRow :=
  (List.insertionSort newerFirst (table.filter (fun r => r.user_id == some u))).take 20

/-- app.py `api_history` (`GET /api/history`): status code and, on success,
the returned `history` rows. -/
def api_history (table : List RecRow) (uid : Option Nat) : Nat × Option (List RecRow) :=
  if pyTruthyUid uid then (200, some (historyQuery table (uid.getD 0)))
  else (401, none)

/-! ### Signup (app.py lines 158-180)

`users` has `phone TEXT UNIQUE, email TEXT UNIQUE`; the INSERT passes
`phone or None` / `email or None`, and SQLite UNIQUE never treats two NULLs as
a conflict, so only equal non-null values collide.  The password column stores
`hashpw(pw)`; the hash function is passed in as a parameter (its value is
irrelevant to every property proved here). -/

structure UserRow where
  name : String
  phone : Option String
  email : Option String
  password : String
deriving DecidableEq

/-- Python `s or None` for an (already stripped) string. -/
def orNone (s : String) : Option String := if s = "" then none else some s

/-- SQLite `IntegrityError` condition for the `users` INSERT: a non-null phone
equal to a stored phone, or a non-null email equal to a stored email. -/
def hasConflict (table : List UserRow) (phone email : Option String) : Bool :=
  table.any (fun u => (phone.isSome && (u.phone == phone)) ||
                      (email.isSome && (u.email == email)))

inductive SignupOut where
  | badRequest (msg : String)
  | created (row : UserRow)
deriving DecidableEq

/-- app.py `signup` (`POST /signup`). -/
def signup (hash : String → String) (table : List UserRow)
    (nameF phoneF emailF pw : String) : SignupOut :=
  let name := pyStrip nameF
  let phone := pyStrip phoneF
  let email := pyStrip emailF
  if phone = "" ∧ email = "" then .badRequest "Phone or email required"
  else if pw = "" then .badRequest "Password required"
  else
    let row : UserRow := { name := name, phone := orNone phone, email := orNone email,
                           password := hash pw }
    if hasConflict table row.phone row.email then
      .badRequest "Phone/email already registered"
    else .created row

/-! ### Concrete fixtures used by witnesses and counterexamples -/

def cfgK : Config := ⟨"gsk_test_key"⟩
def netOk : Net := ⟨fun _ => .ok "Great outfit ideas", fun _ _ => .ok "Vision reply"⟩
def netVT : Net := ⟨fun _ => .ok "hello", fun _ _ => .timeout⟩
def netHErr : Net := ⟨fun _ => .ok "hello", fun _ _ => .err "500 Server Error"⟩
def netTT : Net := ⟨fun _ => .timeout, fun _ _ => .timeout⟩
def filesOk : Files := ⟨fun _ => some [137, 80], fun _ => none⟩
def filesBad : Files := ⟨fun _ => some [137, 80], fun _ => some "disk full"⟩
def dbOk : Db := ⟨none, none⟩
def dbProfileFail : Db := ⟨some "database is locked", none⟩
def formProfileEx : List (String × String) :=
  [("gender", "Female"), ("age", "28"), ("size", "M"),
   ("culture_style", "Western"), ("dress_style", "Formal")]

/-! ### Helper lemmas -/

/-- A pass whose opening delimiter starts with `*` leaves a star-free character
list untouched (for any fuel: both the genuine arms and the fuel-exhausted arm
return the input unchanged). -/
theorem subPatF_no_star (op' cl : List Char) :
    ∀ (fuel : Nat) (cs : List Char), (∀ c ∈ cs, c ≠ '*') →
      subPatF ('*' :: op') cl fuel cs = cs := by
  intro fuel
  induction fuel with
  | zero => intro cs _h; cases cs <;> rfl
  | succ n ih =>
    intro cs h
    cases cs with
    | nil => rfl
    | cons c rest =>
      have hc : c ≠ '*' := h c (List.mem_cons_self c rest)
      have hpre : ('*' :: op').isPrefixOf (c :: rest) = false := by
        simp [List.isPrefixOf, beq_eq_false_iff_ne, Ne.symm hc]
      rw [subPatF, hpre]
      simp only [Bool.false_eq_true, if_false]
      rw [ih rest (fun x hx => h x (List.mem_cons_of_mem c hx))]

/-- `strip_md` on a star-free string is just `.strip()`. -/
theorem strip_md_no_star (s : String) (h : ∀ c ∈ s.data, c ≠ '*') :
    strip_md s = pyStrip s := by
  have h1 : subPat ['*', '*'] ['*', '*'] s.data = s.data :=
    subPatF_no_star ['*'] ['*', '*'] s.data.length s.data h
  have hmk : String.mk s.data = s := rfl
  have h2 : subPat ['*'] ['*'] s.data = s.data :=
    subPatF_no_star [] ['*'] s.data.length s.data h
  simp only [strip_md, h1, hmk, h2]

/-! ## Claims -/

/-- C1: every AI-generation endpoint returns a 200 (never a 5xx) for every
input and every outcome of the photo write, the DB inserts and the external
call; and when an exception is raised inside `get_recommendation`'s guarded
sequence (the photo save or the profile insert), it is converted at the
boundary into the apologetic `"Error: …. Please try again."` payload. -/
theorem C1_generation_endpoints_never_5xx :
    (∀ cfg net files db uid form photo,
      (get_recommendation cfg net files db uid form photo).status = 200) ∧
    (∀ cfg net db uid form, (generate_pitch cfg net db uid form).status = 200) ∧
    (∀ cfg net db uid form, (lead_score cfg net db uid form).status = 200) ∧
    (∀ cfg net db uid form, (generate_campaign cfg net db uid form).status = 200) ∧
    (∀ cfg net files db uid form fn e,
      (((fn : String) != "") && ok_file fn) = true → files.savePhoto fn = some e →
      (get_recommendation cfg net files db uid form (some fn)).result =
        "Error: " ++ e ++ ". Please try again.") ∧
    (∀ cfg net files db uid form e,
      pyTruthyUid uid = true → db.insertProfileErr = some e →
      (get_recommendation cfg net files db uid form none).result =
        "Error: " ++ e ++ ". Please try again.") := by
  refine ⟨?_, ?_, ?_, ?_, ?_, ?_⟩
  · intro cfg net files db uid form photo
    simp only [get_recommendation]
    split
    · rfl
    · split
      · rfl
      · rfl
  · intro cfg net db uid form
    simp only [generate_pitch]
    split <;> rfl
  · intro cfg net db uid form
    rfl
  · intro cfg net db uid form
    simp only [generate_campaign]
    split <;> rfl
  · intro cfg net files db uid form fn e hok hsv
    obtain ⟨h1, h2⟩ : (fn != "") = true ∧ ok_file fn = true := by simpa using hok
    simp [get_recommendation, h1, h2, hsv, errOut]
  · intro cfg net files db uid form e huid herr
    simp [get_recommendation, huid, herr, errOut]

/-- C1 witness: with a photo whose save raises "disk full", the response is
the apologetic 200 payload. -/
theorem C1_witness :
    (get_recommendation cfgK netOk filesBad dbOk none [] (some "a.png")).result =
      "Error: disk full. Please try again." :=
  C1_generation_endpoints_never_5xx.2.2.2.2.1 cfgK netOk filesBad dbOk none [] "a.png"
    "disk full" (by decide) rfl

/-- C3 counterexample: with a configured key, a vision call that fails with a
timeout, and a text call that succeeds with "hello", `completeVision` returns
"hello" — not the "timed out, try again" message the claim requires of both
entry points. -/
theorem C3_counterexample :
    netVT.visionPost "p" "a.jpg" = CallResult.timeout ∧
    (call_vision cfgK netVT filesOk "p" "a.jpg").text ≠
      "Request timed out. Please try again." :=
  ⟨rfl, by decide⟩

/-- C3 (amended): `completeText` returns the "timed out, try again" message
when its call times out; `completeVision` treats a timeout like any other
failure and falls back to text-only completion on the same prompt, so the
timed-out message surfaces only if the fallback text call itself times out. -/
theorem C3_timeout_message :
    (∀ cfg net prompt, cfg.groqKey ≠ "" → net.textPost prompt = CallResult.timeout →
      (call_text cfg net prompt).text = "Request timed out. Please try again.") ∧
    (∀ cfg net files prompt imgPath bytes,
      files.readBytes imgPath = some bytes →
      net.visionPost prompt imgPath = CallResult.timeout →
      call_vision cfg net files prompt imgPath = call_text cfg net prompt) := by
  constructor
  · intro cfg net prompt hk ht
    simp [call_text, hk, ht]
  · intro cfg net files prompt imgPath bytes hr hv
    by_cases hk : cfg.groqKey = ""
    · simp [call_vision, call_text, hk]
    · simp [call_vision, hk, hr, hv]

/-- C3 witness: a timing-out text call yields the timed-out message, and a
timing-out vision call yields exactly the text-mode result. -/
theorem C3_witness :
    (call_text cfgK netTT "p").text = "Request timed out. Please try again." ∧
    call_vision cfgK netTT filesOk "p" "i.png" = call_text cfgK netTT "p" :=
  ⟨C3_timeout_message.1 cfgK netTT "p" (by decide) rfl,
   C3_timeout_message.2 cfgK netTT filesOk "p" "i.png" [137, 80] rfl rfl⟩

/-- C4: whenever `completeVision` fails for a non-timeout reason — the image
cannot be read, or the HTTP call fails with anything other than a timeout —
it returns exactly `completeText` applied to the same prompt. -/
theorem C4_vision_falls_back_to_text :
    ∀ cfg net files prompt imgPath,
      (files.readBytes imgPath = none ∨ ∃ e, net.visionPost prompt imgPath = CallResult.err e) →
      call_vision cfg net files prompt imgPath = call_text cfg net prompt := by
  intro cfg net files prompt imgPath h
  by_cases hk : cfg.groqKey = ""
  · simp [call_vision, call_text, hk]
  · rcases h with hread | ⟨e, herr⟩
    · simp [call_vision, hk, hread]
    · cases hb : files.readBytes imgPath with
      | none => simp [call_vision, hk, hb]
      | some bytes => simp [call_vision, hk, hb, herr]

/-- C4 witness: a vision call failing with a 500 error returns the text-mode
result for the identical prompt. -/
theorem C4_witness :
    call_vision cfgK netHErr filesOk "Prompt" "img.png" = call_text cfgK netHErr "Prompt" :=
  C4_vision_falls_back_to_text cfgK netHErr filesOk "Prompt" "img.png"
    (Or.inr ⟨"500 Server Error", rfl⟩)

/-- C5: the markdown stripper maps `"**bold**"` to `"bold"`, `"*italic*"` to
`"italic"`, `"a **b** c *d* e"` to `"a b c d e"`, and returns any text with no
`*` emphasis markers unchanged apart from trimming surrounding whitespace. -/
theorem C5_markdown_stripper :
    strip_md "**bold**" = "bold" ∧
    strip_md "*italic*" = "italic" ∧
    strip_md "a **b** c *d* e" = "a b c d e" ∧
    ∀ s : String, (∀ c ∈ s.data, c ≠ '*') → strip_md s = pyStrip s :=
  ⟨by decide, by decide, by decide, fun s h => strip_md_no_star s h⟩

/-- C5 witness: plain text is returned unchanged after trimming. -/
theorem C5_witness : strip_md "  plain text  " = pyStrip "  plain text  " :=
  C5_markdown_stripper.2.2.2 "  plain text  " (by decide)

/-- C9: with no API credential configured, both `completeText` and
`completeVision` return the same fixed advisory string, make no network call,
and (being total functions) never throw. -/
theorem C9_missing_key_advisory :
    ∀ cfg net files prompt imgPath, cfg.groqKey = "" →
      call_text cfg net prompt = ⟨ADVISORY, false⟩ ∧
      call_vision cfg net files prompt imgPath = ⟨ADVISORY, false⟩ := by
  intro cfg net files prompt imgPath hk
  constructor
  · simp [call_text, hk]
  · simp [call_vision, hk]

/-- C9 witness: the empty-key configuration short-circuits both entry points. -/
theorem C9_witness :
    call_text ⟨""⟩ netOk "p" = ⟨ADVISORY, false⟩ ∧
    call_vision ⟨""⟩ netOk filesOk "p" "i.png" = ⟨ADVISORY, false⟩ :=
  C9_missing_key_advisory ⟨""⟩ netOk filesOk "p" "i.png" rfl

/-- C2 counterexample: an anonymous outfit-recommendation request that carries
a full set of profile fields creates no FashionProfile row at all — not the
"exactly one row with user_id null" the claim requires: the handler guards the
profile INSERT with `if uid:`. -/
theorem C2_counterexample :
    (get_recommendation cfgK netOk filesOk dbOk none formProfileEx none).profiles = [] ∧
    (get_recommendation cfgK netOk filesOk dbOk none formProfileEx none).profiles.length ≠ 1 :=
  ⟨rfl, by decide⟩

/-- C2 (amended): a FashionProfile row is created only when the session
carries a truthy user id — anonymous requests store no profile row at all —
and for an authenticated caller whose insert succeeds, exactly one row is
created, carrying that caller's user id. -/
theorem C2_profile_row_only_when_authenticated :
    (∀ cfg net files db uid form photo, pyTruthyUid uid = false →
      (get_recommendation cfg net files db uid form photo).profiles = []) ∧
    (∀ cfg net files db form u, u ≠ 0 → db.insertProfileErr = none →
      (get_recommendation cfg net files db (some u) form none).profiles =
        [{ user_id := some u,
           gender := formGet form "gender" "Not specified",
           age := formGet form "age" "25",
           size := formGet form "size" "M",
           culture_style := formGet form "culture_style" "Universal",
           dress_style := formGet form "dress_style" "Casual",
           photo_path := "" }]) := by
  constructor
  · intro cfg net files db uid form photo huid
    simp only [get_recommendation, huid]
    split
    · rfl
    · simp [errOut]
  · intro cfg net files db form u hu herr
    have htr : pyTruthyUid (some u) = true := by
      simp [pyTruthyUid, hu]
    simp [get_recommendation, htr, herr, errOut]

/-- C2 witness: an authenticated caller's request creates exactly the one
profile row holding their user id. -/
theorem C2_witness :
    (get_recommendation cfgK netOk filesOk dbOk (some 5) [] none).profiles =
      [{ user_id := some 5, gender := "Not specified", age := "25", size := "M",
         culture_style := "Universal", dress_style := "Casual", photo_path := "" }] :=
  C2_profile_row_only_when_authenticated.2 cfgK netOk filesOk dbOk [] 5 (by decide) rfl

/-- C6: a pitch or campaign request whose `product` field is missing, empty,
or whitespace-only short-circuits to the prompt-for-input message, never
invokes the completion client, and persists no recommendation row. -/
theorem C6_empty_product_short_circuits :
    (∀ cfg net db uid form, pyStrip (formGet form "product" "") = "" →
      (generate_pitch cfg net db uid form).result =
          "Please enter an outfit or collection description." ∧
        (generate_pitch cfg net db uid form).llmCalled = false ∧
        (generate_pitch cfg net db uid form).recs = []) ∧
    (∀ cfg net db uid form, pyStrip (formGet form "product" "") = "" →
      (generate_campaign cfg net db uid form).result =
          "Please enter a product or collection name." ∧
        (generate_campaign cfg net db uid form).llmCalled = false ∧
        (generate_campaign cfg net db uid form).recs = []) := by
  constructor
  · intro cfg net db uid form h
    simp [generate_pitch, h]
  · intro cfg net db uid form h
    simp [generate_campaign, h]

/-- C6 witness: a request with no `product` field at all gets the
prompt-for-input message from both builders, with no client call and no row. -/
theorem C6_witness :
    ((generate_pitch cfgK netOk dbOk none []).result =
        "Please enter an outfit or collection description." ∧
      (generate_pitch cfgK netOk dbOk none []).llmCalled = false ∧
      (generate_pitch cfgK netOk dbOk none []).recs = []) ∧
    ((generate_campaign cfgK netOk dbOk none []).result =
        "Please enter a product or collection name." ∧
      (generate_campaign cfgK netOk dbOk none []).llmCalled = false ∧
      (generate_campaign cfgK netOk dbOk none []).recs = []) :=
  ⟨C6_empty_product_short_circuits.1 cfgK netOk dbOk none [] (by decide),
   C6_empty_product_short_circuits.2 cfgK netOk dbOk none [] (by decide)⟩

/-- C7: the history endpoint returns 401 without a resolved session; with one
it returns 200 and a history list containing only that user's rows, at most
20 of them, ordered newest-first by creation time. -/
theorem C7_history_session_and_cap :
    (∀ table uid, pyTruthyUid uid = false → api_history table uid = (401, none)) ∧
    (∀ table u, u ≠ 0 →
      (api_history table (some u)).1 = 200 ∧
      ∃ h, (api_history table (some u)).2 = some h ∧
        h.length ≤ 20 ∧
        (∀ r ∈ h, r.user_id = some u) ∧
        List.Sorted newerFirst h) := by
  constructor
  · intro table uid huid
    simp [api_history, huid]
  · intro table u hu
    have htr : pyTruthyUid (some u) = true := by simp [pyTruthyUid, hu]
    refine ⟨by simp [api_history, htr], historyQuery table u, by simp [api_history, htr], ?_, ?_, ?_⟩
    · simp only [historyQuery, List.length_take]
      exact Nat.min_le_left _ _
    · intro r hr
      have hsort : r ∈ List.insertionSort newerFirst
          (table.filter (fun r => r.user_id == some u)) :=
        List.take_subset _ _ hr
      have hfil : r ∈ table.filter (fun r => r.user_id == some u) :=
        (List.perm_insertionSort newerFirst _).subset hsort
      have := (List.mem_filter.mp hfil).2
      exact beq_iff_eq.mp this
    · exact List.Pairwise.sublist (List.take_sublist 20 _)
        (List.sorted_insertionSort newerFirst _)

/-- C7 witness: no session means 401; a session gets 200 with a valid,
bounded, owner-only, newest-first history. -/
theorem C7_witness :
    api_history [] none = (401, none) ∧
    ((api_history [] (some 1)).1 = 200 ∧
      ∃ h, (api_history [] (some 1)).2 = some h ∧
        h.length ≤ 20 ∧
        (∀ r ∈ h, r.user_id = some 1) ∧
        List.Sorted newerFirst h) :=
  ⟨C7_history_session_and_cap.1 [] none rfl,
   C7_history_session_and_cap.2 [] 1 (by decide)⟩

/-- C8: `ok_file` accepts exactly the filenames containing a dot whose final
extension, lowercased, is in {png, jpg, jpeg, webp, gif}; the listed examples
behave as stated; and a rejected filename is treated by the handler as "no
photo supplied" — a normal 200 response with `photo_analyzed: false` and no
vision call — rather than an error. -/
theorem C8_upload_acceptance :
    ok_file "photo.png" = true ∧
    ok_file "IMG.JPEG" = true ∧
    ok_file "virus.exe" = false ∧
    ok_file "noext" = false ∧
    (∀ name : String, ok_file name = true ↔
      (name.data.contains '.' = true ∧ pyLower (afterLastDot name) ∈ ALLOWED)) ∧
    (∀ cfg net files db form,
      (get_recommendation cfg net files db none form (some "virus.exe")).photo_analyzed =
          some false ∧
        (get_recommendation cfg net files db none form (some "virus.exe")).visionUsed = false ∧
        (get_recommendation cfg net files db none form (some "virus.exe")).status = 200) := by
  refine ⟨by decide, by decide, by decide, by decide, ?_, ?_⟩
  · intro name
    simp [ok_file]
  · intro cfg net files db form
    have hbad : ok_file "virus.exe" = false := by decide
    simp [get_recommendation, hbad, pyTruthyUid]

/-- C10: an empty or whitespace-only phone or email is stored as NULL, not as
an empty string, so the UNIQUE constraints bite only on non-empty values: no
matter what the users table already contains, an email-only signup with a
fresh email always succeeds (phone stored as `none`), and symmetrically a
phone-only signup with a fresh phone always succeeds (email stored as
`none`) — any number of phone-less (resp. email-less) users can coexist. -/
theorem C10_blank_contact_stored_null :
    (∀ (hash : String → String) (table : List UserRow) (name phone email pw : String),
      pyStrip phone = "" → pyStrip email ≠ "" → pw ≠ "" →
      (∀ u ∈ table, u.email ≠ some (pyStrip email)) →
      signup hash table name phone email pw =
        SignupOut.created { name := pyStrip name, phone := none,
                            email := some (pyStrip email), password := hash pw }) ∧
    (∀ (hash : String → String) (table : List UserRow) (name phone email pw : String),
      pyStrip email = "" → pyStrip phone ≠ "" → pw ≠ "" →
      (∀ u ∈ table, u.phone ≠ some (pyStrip phone)) →
      signup hash table name phone email pw =
        SignupOut.created { name := pyStrip name, phone := some (pyStrip phone),
                            email := none, password := hash pw }) := by
  constructor
  · intro hash table name phone email pw hp he hpw hfresh
    have hnc : hasConflict table none (some (pyStrip email)) = false := by
      simp only [hasConflict, List.any_eq_false]
      intro u hu
      simp [Option.isSome_some, beq_eq_false_iff_ne, hfresh u hu]
    simp [signup, hp, he, hpw, hnc, orNone]
  · intro hash table name phone email pw he hp hpw hfresh
    have hnc : hasConflict table (some (pyStrip phone)) none = false := by
      simp only [hasConflict, List.any_eq_false]
      intro u hu
      simp [Option.isSome_some, beq_eq_false_iff_ne, hfresh u hu]
    simp [signup, hp, he, hpw, hnc, orNone]

/-- C10 witness: with two email-only users already stored (both phones NULL),
a third signup whose phone field is whitespace-only and whose email is fresh
succeeds, storing phone NULL — the phone UNIQUE constraint never fires on
blanks. -/
theorem C10_witness :
    signup (fun s => s)
      [{ name := "u1", phone := none, email := some "a@x.com", password := "h1" },
       { name := "u2", phone := none, email := some "b@x.com", password := "h2" }]
      "u3" "   " "c@x.com" "pw" =
      SignupOut.created { name := "u3", phone := none, email := some "c@x.com",
                          password := "pw" } :=
  C10_blank_contact_stored_null.1 (fun s => s)
    [{ name := "u1", phone := none, email := some "a@x.com", password := "h1" },
     { name := "u2", phone := none, email := some "b@x.com", password := "h2" }]
    "u3" "   " "c@x.com" "pw" (by decide) (by decide) (by decide) (by decide)

end StyleAI
